import Mathlib

/-!
Shallow embedding of the background service worker of the
ChromeGeminiSync Chrome extension (src/src/types/messages.ts: the message
envelope declarations together with the background coordinator that the
file concatenates), and proofs about the message-routing and
request/response correlation core.

The embedding follows the TypeScript source line by line:
pure functions become Lean functions, the mutable module-level state
(`socket`, `reconnectAttempts`, `consoleLogs`, `attachedTabs`) becomes
explicit state records threaded through step functions, Chrome API calls
become fields of an `Env` record holding one execution's outcomes, and
`throw`/rejected promises become `Except String`.
JavaScript truthiness of optional strings (`!params?.selector`,
`options?.selector || body`) is modelled explicitly: `none` and the empty
string are both falsy.
-/

namespace ChromeGeminiSync

/-- Decidable equality of handler outcomes, so that concrete runs can be
checked by evaluation. -/
instance {e a : Type} [DecidableEq e] [DecidableEq a] : DecidableEq (Except e a) :=
  fun x y =>
    match x, y with
    | .error u, .error v =>
      if h : u = v then .isTrue (congrArg Except.error h)
      else .isFalse (fun hc => h (Except.error.inj hc))
    | .ok u, .ok v =>
      if h : u = v then .isTrue (congrArg Except.ok h)
      else .isFalse (fun hc => h (Except.ok.inj hc))
    | .error _, .ok _ => .isFalse (fun hc => Except.noConfusion hc)
    | .ok _, .error _ => .isFalse (fun hc => Except.noConfusion hc)

/-! ## Envelope data model (messages.ts lines 22 to 58)

The wire discriminant field `type` is constant per Lean type
(`browser:request`, `browser:response`, `content:response`) and is
represented by the Lean type itself. -/

/-- Severity levels of a console log record (messages.ts line 105). -/
inductive LogLevel where
  | error | warning | info | log | debug
deriving DecidableEq, Repr

/-- One captured console record (messages.ts lines 104 to 111). -/
structure ConsoleLogEntry where
  level : LogLevel
  text : String
  timestamp : Nat
  url : Option String := none
  lineNumber : Option Nat := none
  stackTrace : Option String := none
deriving DecidableEq, Repr

/-- The optional parameter record of a browser-context request
(`params?: Record<string, unknown>`), restricted to the fields the
handlers actually read. -/
structure ReqParams where
  selector : Option String := none
  script : Option String := none
  action : Option String := none
  value : Option String := none
  attributeName : Option String := none
  all : Option Bool := none
  level : Option String := none
  clear : Option Bool := none
deriving DecidableEq, Repr

/-- Inbound `browser:request` envelope (messages.ts lines 23 to 28).
The action is the raw string discriminant; the dispatch switch has a
default arm for strings outside the known set. -/
structure BrowserContextRequest where
  requestId : String
  action : String
  params : Option ReqParams := none
deriving DecidableEq, Repr

/-- Success payloads of the capability handlers (`data?: unknown`),
one constructor per handler result shape. -/
inductive RespData where
  | dom (html : String) (url : String) (title : String) (selector : String)
  | selectionData (text : String) (url : String) (title : String)
  | urlData (url : String) (title : String) (id : Nat)
  | screenshot (dataUrl : String) (format : String)
  | execResult (success : Bool)
  | modified (modifiedCount : Nat) (message : String)
  | logsData (logs : List ConsoleLogEntry) (tabId : Nat) (url : String)
      (isCapturing : Bool)
deriving DecidableEq, Repr

/-- Outbound `browser:response` envelope (messages.ts lines 30 to 36). -/
structure BrowserContextResponse where
  requestId : String
  success : Bool
  data : Option RespData := none
  error : Option String := none
deriving DecidableEq, Repr

/-- `content:response` envelope (messages.ts lines 52 to 58). -/
structure ContentScriptResponse where
  requestId : String
  success : Bool
  error : Option String := none
deriving DecidableEq, Repr

/-- Failure response for a request, as built at every error site:
`success: false` with the original requestId and no data. -/
def errResp (req : BrowserContextRequest) (e : String) : BrowserContextResponse :=
  { requestId := req.requestId, success := false, data := none, error := some e }

/-- Success response for a request: `success: true` with payload. -/
def okResp (req : BrowserContextRequest) (d : RespData) : BrowserContextResponse :=
  { requestId := req.requestId, success := true, data := some d, error := none }

/-! ## Tabs, pages and the Chrome environment -/

/-- A browser tab as seen through `chrome.tabs`. `id = 0` models a falsy
`tab.id` (the source checks `!tab?.id`); `url` is `tab.url || ''`. -/
structure Tab where
  id : Nat
  url : String
  title : String
deriving DecidableEq, Repr

/-- A DOM element, identified for the purpose of tracking which elements a
mutation touched; `outerHTML` is what `getDom` reads back. -/
structure Elem where
  eid : Nat
  outerHTML : String
deriving DecidableEq, Repr

/-- The document of the active tab, as the injected functions see it:
`queryAll` is `document.querySelectorAll` in document order and
`querySelector` is its first result. -/
structure Page where
  url : String
  title : String
  selText : String
  queryAll : String → List Elem

/-- First match of a selector (`document.querySelector`). -/
def Page.queryOne (p : Page) (sel : String) : Option Elem :=
  (p.queryAll sel).head?

/-- One execution's outcomes of the Chrome APIs the handlers call:
the active-tab query, whether `chrome.scripting.executeScript` rejects,
what the page does when injected user code runs, and the results of
capture, debugger attach/detach and the two `sendCommand` calls. -/
structure Env where
  activeTab : Option Tab
  page : Page
  injectionError : Option String := none
  execThrows : Option String := none
  captureResult : Except String String := .ok ""
  attachResult : Except String Unit := .ok ()
  logEnableResult : Except String Unit := .ok ()
  runtimeEnableResult : Except String Unit := .ok ()
  detachResult : Except String Unit := .ok ()

/-- A capability operation invoked against the browser, recorded in the
order the handlers reach the corresponding Chrome API. -/
inductive CapOp where
  | scripting (tabId : Nat)
  | capture
  | debuggerAttach (tabId : Nat)
  | debuggerCmd (tabId : Nat) (cmd : String)
deriving DecidableEq, Repr

/-! ## JavaScript truthiness helpers -/

/-- `o || d` for an optional string: `none` and `""` are falsy. -/
def strOr (o : Option String) (d : String) : String :=
  match o with
  | none => d
  | some s => if s = "" then d else s

/-- Truthy projection of an optional string: `some s` when `s` is a
non-empty string, otherwise `none`. -/
def truthyStr (o : Option String) : Option String :=
  match o with
  | none => none
  | some s => if s = "" then none else some s

/-! ## Connection Manager (messages.ts lines 90 to 204, 862 to 887)

The module state `socket` / `reconnectAttempts` together with the
observable effects: pending `setTimeout(connectToBackend, ...)` timers are
counted, and `connection:status` broadcasts are accumulated in order. -/

def MAX_RECONNECT_ATTEMPTS : Nat := 10

/-- WebSocket ready states as numbered by the Web API. -/
def WS_CONNECTING : Nat := 0

def WS_OPEN : Nat := 1

/-- A WebSocket object: a fresh identity per `new WebSocket(...)` plus its
ready state. -/
structure Sock where
  sid : Nat
  readyState : Nat
deriving DecidableEq, Repr

/-- `connection:status` broadcast payload (messages.ts lines 39 to 43). -/
structure ConnectionStatusMessage where
  status : String
  message : Option String := none
deriving DecidableEq, Repr

/-- State of the connection manager: the `socket` variable, the
`reconnectAttempts` counter, a counter of scheduled reconnect timers, the
broadcast log, and a supply of fresh socket identities. -/
structure ConnState where
  socket : Option Sock := none
  reconnectAttempts : Nat := 0
  scheduledConnects : Nat := 0
  broadcasts : List ConnectionStatusMessage := []
  nextSockId : Nat := 0
deriving DecidableEq, Repr

/-- `socket?.readyState === WebSocket.OPEN` (line 121). -/
def socketIsOpen (s : ConnState) : Bool :=
  match s.socket with
  | some so => so.readyState == WS_OPEN
  | none => false

/-- `broadcastToExtension` (lines 200 to 204): fire-and-forget publish. -/
def broadcastToExtension (s : ConnState) (m : ConnectionStatusMessage) : ConnState :=
  { s with broadcasts := s.broadcasts ++ [m] }

/-- `scheduleReconnect` (lines 170 to 183): below the cap, bump the
counter and schedule one `connectToBackend` timer; at the cap, broadcast a
terminal error status and schedule nothing. -/
def scheduleReconnect (s : ConnState) : ConnState :=
  if s.reconnectAttempts < MAX_RECONNECT_ATTEMPTS then
    { s with reconnectAttempts := s.reconnectAttempts + 1,
             scheduledConnects := s.scheduledConnects + 1 }
  else
    broadcastToExtension s
      ⟨"error", some "Failed to connect after multiple attempts. Is the backend running?"⟩

/-- `connectToBackend` (lines 120 to 165). `createOk` is whether the
`new WebSocket(...)` constructor succeeds; on constructor throw the old
`socket` value is kept and a reconnect is scheduled. Only an OPEN socket
short-circuits the call. -/
def connectToBackend (createOk : Bool) (s : ConnState) : ConnState :=
  if socketIsOpen s then s
  else
    let s1 := broadcastToExtension s ⟨"connecting", none⟩
    if createOk then
      { s1 with socket := some ⟨s1.nextSockId, WS_CONNECTING⟩,
                nextSockId := s1.nextSockId + 1 }
    else
      scheduleReconnect s1

/-- `socket.onopen` (lines 131 to 135): the platform has moved the socket
to OPEN; the handler zeroes the retry counter and broadcasts. -/
def socketOnOpen (s : ConnState) : ConnState :=
  let s1 := { s with
    socket := s.socket.map (fun so => { so with readyState := WS_OPEN }),
    reconnectAttempts := 0 }
  broadcastToExtension s1 ⟨"connected", none⟩

/-- `socket.onclose` (lines 146 to 151): null the socket, broadcast
disconnected, schedule a reconnect. -/
def socketOnClose (s : ConnState) : ConnState :=
  scheduleReconnect
    (broadcastToExtension { s with socket := none } ⟨"disconnected", none⟩)

/-- The `reconnect` branch of the `chrome.runtime.onMessage` listener
(lines 879 to 884): zero the counter, then call `connectToBackend`. -/
def manualReconnect (createOk : Bool) (s : ConnState) : ConnState :=
  connectToBackend createOk { s with reconnectAttempts := 0 }

/-! ## Content-script round trip (messages.ts lines 304 to 323)

`_sendToContentScript` races a 10 s `setTimeout` rejection against the
`chrome.tabs.sendMessage` callback inside one promise executor; promise
settle-once semantics makes whichever settles first the caller's outcome
and every later settlement attempt a no-op. The per-call closure is the
pending entry: it is pending while `settled = none`. -/

def CONTENT_SCRIPT_TIMEOUT_ERROR : String := "Content script response timeout"

/-- State of one in-flight `_sendToContentScript` promise: its settlement
(if any) and whether the timeout timer is still armed. -/
structure CallState where
  settled : Option (Except String ContentScriptResponse) := none
  timeoutActive : Bool := true
deriving Repr

/-- Freshly created call: pending, timer armed. -/
def initialCall : CallState := {}

/-- Promise settlement: the first `resolve`/`reject` wins, later ones are
discarded by the platform. -/
def settle (s : CallState) (r : Except String ContentScriptResponse) : CallState :=
  match s.settled with
  | some _ => s
  | none => { s with settled := some r }

/-- The `setTimeout` callback (lines 309 to 311) firing: only an armed
timer fires, and it rejects with the timeout error. -/
def onTimeoutFire (s : CallState) : CallState :=
  if s.timeoutActive then
    settle { s with timeoutActive := false } (.error CONTENT_SCRIPT_TIMEOUT_ERROR)
  else s

/-- The `chrome.tabs.sendMessage` callback (lines 313 to 320):
`clearTimeout` first, then reject with `chrome.runtime.lastError` when
set, else resolve with the response. -/
def onResponse (s : CallState) (lastErr : Option String)
    (resp : ContentScriptResponse) : CallState :=
  let s1 := { s with timeoutActive := false }
  match lastErr with
  | some e => settle s1 (.error e)
  | none => settle s1 (.ok resp)

/-! ## Log Buffer ring (messages.ts lines 113 to 115, 837 to 845) -/

def MAX_LOGS_PER_TAB : Nat := 500

/-- Suffix of the `k` most recent elements (all of them when fewer). -/
def suffixKeep (k : Nat) (l : List ConsoleLogEntry) : List ConsoleLogEntry :=
  l.drop (l.length - k)

/-- The append-and-trim of the `chrome.debugger.onEvent` listener
(lines 838 to 844): `logs.push(entry)` then
`logs.splice(0, logs.length - MAX_LOGS_PER_TAB)` when over the cap. -/
def appendTrim (logs : List ConsoleLogEntry) (e : ConsoleLogEntry) : List ConsoleLogEntry :=
  if (logs ++ [e]).length > MAX_LOGS_PER_TAB then
    (logs ++ [e]).drop ((logs ++ [e]).length - MAX_LOGS_PER_TAB)
  else logs ++ [e]

/-- Ring contents after a sequence of appends starting from the empty
ring a tab gets on attach. -/
def ringAfter (es : List ConsoleLogEntry) : List ConsoleLogEntry :=
  es.foldl appendTrim []

/-! ## Active-tab resolution (messages.ts lines 282 to 298) -/

/-- `String.startsWith`, embedded over the character list so that it is
evaluable by the kernel. -/
def strStartsWith (s p : String) : Bool := p.data.isPrefixOf s.data

/-- The fixed denylist check of `getActiveTab`. -/
def restrictedUrl (url : String) : Bool :=
  strStartsWith url "chrome://" || strStartsWith url "chrome-extension://" ||
  strStartsWith url "edge://" || strStartsWith url "about:" ||
  strStartsWith url "devtools://"

/-- The first component of `url.split('/')`: the characters before the
first slash. -/
def beforeFirstSlash (url : String) : String :=
  String.mk (url.data.takeWhile (fun c => c != '/'))

/-- The truncated display of a restricted address:
`url.split('/')[0] + '//...'` from line 293. -/
def urlSchemeDisplay (url : String) : String :=
  beforeFirstSlash url ++ "//..."

/-- `getActiveTab` (lines 282 to 298): throws when no tab is resolved,
when the tab id is falsy, or when the address starts with a denylisted
internal scheme. -/
def getActiveTab (env : Env) : Except String Tab :=
  match env.activeTab with
  | none => .error "No active tab found"
  | some tab =>
    if tab.id = 0 then .error "No active tab found"
    else if restrictedUrl tab.url then
      .error ("Cannot access restricted page: " ++ urlSchemeDisplay tab.url)
    else .ok tab

/-! ## Capability handlers (messages.ts lines 328 to 664)

Each handler returns the capability operations it invoked, in order, and
either a response or a thrown error (`Except.error`), which the dispatch
catch converts into a failure response. -/

/-- `getActiveTabDom` (lines 328 to 367). The injected function defaults
the selector to `body`, reads back `outerHTML`, and reports a missing
element as a result-level error that the handler turns into a failure
response. -/
def getActiveTabDom (env : Env) (req : BrowserContextRequest) :
    List CapOp × Except String BrowserContextResponse :=
  match getActiveTab env with
  | .error e => ([], .error e)
  | .ok tab =>
    match env.injectionError with
    | some e => ([.scripting tab.id], .error e)
    | none =>
      let selector := strOr (req.params.bind ReqParams.selector) "body"
      match env.page.queryOne selector with
      | none => ([.scripting tab.id], .ok (errResp req ("Element not found: " ++ selector)))
      | some el =>
        ([.scripting tab.id],
         .ok (okResp req (.dom el.outerHTML env.page.url env.page.title selector)))

/-- `getActiveTabSelection` (lines 372 to 393): always succeeds once the
tab resolves and the injection runs; an empty selection is the empty
string. -/
def getActiveTabSelection (env : Env) (req : BrowserContextRequest) :
    List CapOp × Except String BrowserContextResponse :=
  match getActiveTab env with
  | .error e => ([], .error e)
  | .ok tab =>
    match env.injectionError with
    | some e => ([.scripting tab.id], .error e)
    | none =>
      ([.scripting tab.id],
       .ok (okResp req (.selectionData env.page.selText env.page.url env.page.title)))

/-- `getActiveTabUrl` (lines 398 to 411): pure tab metadata, no
capability call. -/
def getActiveTabUrl (env : Env) (req : BrowserContextRequest) :
    List CapOp × Except String BrowserContextResponse :=
  match getActiveTab env with
  | .error e => ([], .error e)
  | .ok tab => ([], .ok (okResp req (.urlData tab.url tab.title tab.id)))

/-- `captureActiveTabScreenshot` (lines 416 to 440): calls
`chrome.tabs.captureVisibleTab` directly — it does not resolve the active
tab first — and converts a rejected capture into a failure response via
its own try/catch. -/
def captureActiveTabScreenshot (env : Env) (req : BrowserContextRequest) :
    List CapOp × Except String BrowserContextResponse :=
  match env.captureResult with
  | .ok dataUrl => ([.capture], .ok (okResp req (.screenshot dataUrl "png")))
  | .error e => ([.capture], .ok (errResp req e))

/-- Value of the wrapper IIFE built around the user script
(lines 467 to 475): an exception raised by the user code is caught and
becomes an error object, otherwise the user code's value stands. -/
inductive IifeResult where
  | value
  | errObj (message : String)
deriving DecidableEq, Repr

/-- Evaluation of the wrapper IIFE in the page's MAIN world. -/
def runWrappedIife (execThrows : Option String) : IifeResult :=
  match execThrows with
  | some m => .errObj m
  | none => .value

/-- Return value of the injected function of `executeScriptInTab`
(lines 481 to 487). -/
structure InjectedScriptTagResult where
  success : Bool
deriving DecidableEq, Repr

/-- The injected function of `executeScriptInTab`: it runs the wrapped
code through a `<script>` element, whose completion value — including the
IIFE's caught-error object — goes nowhere, and returns
`{ success: true }` unconditionally. -/
def injectScriptTag (execThrows : Option String) : InjectedScriptTagResult :=
  let _discarded := runWrappedIife execThrows
  { success := true }

/-- `executeScriptInTab` (lines 447 to 509): a missing (or empty) script
is a failure response; an injection rejection is caught by the handler's
try/catch; otherwise the response wraps the injected function's
`{ success: true }` result. -/
def executeScriptInTab (env : Env) (req : BrowserContextRequest) :
    List CapOp × Except String BrowserContextResponse :=
  match getActiveTab env with
  | .error e => ([], .error e)
  | .ok tab =>
    match truthyStr (req.params.bind ReqParams.script) with
    | none => ([], .ok (errResp req "No script provided"))
    | some _script =>
      match env.injectionError with
      | some e => ([.scripting tab.id], .ok (errResp req e))
      | none =>
        ([.scripting tab.id],
         .ok (okResp req (.execResult (injectScriptTag env.execThrows).success)))

/-- Per-element body of the `modifyDom` injected loop
(lines 559 to 621): the precondition check of each action, performed
before the mutation; an unknown action string hits the default arm. -/
def modifyDomStep (action : String) (value attributeName : Option String) :
    Except String Unit :=
  if action = "setHTML" then .ok ()
  else if action = "setOuterHTML" then .ok ()
  else if action = "setText" then .ok ()
  else if action = "setAttribute" then
    if truthyStr attributeName = none then
      .error "attributeName required for setAttribute action"
    else .ok ()
  else if action = "removeAttribute" then
    if truthyStr attributeName = none then
      .error "attributeName required for removeAttribute action"
    else .ok ()
  else if action = "addClass" then
    if truthyStr value = none then
      .error "value (class name) required for addClass action"
    else .ok ()
  else if action = "removeClass" then
    if truthyStr value = none then
      .error "value (class name) required for removeClass action"
    else .ok ()
  else if action = "remove" then .ok ()
  else if action = "insertBefore" then
    if truthyStr value = none then
      .error "value (HTML content) required for insertBefore action"
    else .ok ()
  else if action = "insertAfter" then
    if truthyStr value = none then
      .error "value (HTML content) required for insertAfter action"
    else .ok ()
  else .error ("Unknown action: " ++ action)

/-- The `for (const element of elements)` loop: an early error return
aborts; otherwise each element is modified once, and the identities of
the modified elements are recorded alongside `modifiedCount`. -/
def modifyLoop (action : String) (value attributeName : Option String) :
    List Elem → Except String (Nat × List Nat)
  | [] => .ok (0, [])
  | el :: rest =>
    match modifyDomStep action value attributeName with
    | .error e => .error e
    | .ok _ =>
      match modifyLoop action value attributeName rest with
      | .error e => .error e
      | .ok (c, ids) => .ok (c + 1, el.eid :: ids)

/-- Result of the `modifyDom` injected function; `modifiedIds` is the
embedding's record of which elements were actually modified. -/
inductive MDResult where
  | ok (modifiedCount : Nat) (message : String) (modifiedIds : List Nat)
  | failure (error : String)
deriving DecidableEq, Repr

/-- The `modifyDom` injected function (lines 547 to 632): `all` selects
every match versus only the first; zero matches is a failure naming the
selector; success reports the count and a summary message. -/
def modifyDomFunc (page : Page) (selector action : String)
    (value attributeName : Option String) (all : Bool) : MDResult :=
  let elements := if all then page.queryAll selector
                  else ((page.queryAll selector).head?).toList
  if elements.length = 0 then
    .failure ("No elements found matching: " ++ selector)
  else
    match modifyLoop action value attributeName elements with
    | .error e => .failure e
    | .ok (c, ids) =>
      .ok c ("Modified " ++ toString c ++ " element(s) using " ++ action) ids

/-- `modifyDomInTab` (lines 514 to 664): selector and action are each
required (distinct failures); the injected function's failure becomes a
failure response and its success a `modifiedCount`/`message` payload. -/
def modifyDomInTab (env : Env) (req : BrowserContextRequest) :
    List CapOp × Except String BrowserContextResponse :=
  match getActiveTab env with
  | .error e => ([], .error e)
  | .ok tab =>
    let params := req.params.getD {}
    match truthyStr params.selector with
    | none => ([], .ok (errResp req "No selector provided"))
    | some selector =>
      match truthyStr params.action with
      | none => ([], .ok (errResp req "No action provided"))
      | some act =>
        match env.injectionError with
        | some e => ([.scripting tab.id], .ok (errResp req e))
        | none =>
          match modifyDomFunc env.page selector act params.value
              params.attributeName (params.all.getD false) with
          | .failure e => ([.scripting tab.id], .ok (errResp req e))
          | .ok c msg _ids =>
            ([.scripting tab.id], .ok (okResp req (.modified c msg)))

/-! ## Debug sessions and console logs
(messages.ts lines 113 to 115, 669 to 765, 768 to 860) -/

/-- State of the two module-level tables: the `attachedTabs` set and the
`consoleLogs` map (a tab owns a ring exactly when `rings` is `some`). -/
structure BgState where
  attached : Nat → Bool
  rings : Nat → Option (List ConsoleLogEntry)

/-- Initial background state: both tables empty. -/
def initBg : BgState := ⟨fun _ => false, fun _ => none⟩

/-- Pointwise update of the attached-tabs set. -/
def setAttached (f : Nat → Bool) (t : Nat) (b : Bool) : Nat → Bool :=
  fun x => if x = t then b else f x

/-- Pointwise update of the console-logs map (`none` deletes the key). -/
def setRing (f : Nat → Option (List ConsoleLogEntry)) (t : Nat)
    (v : Option (List ConsoleLogEntry)) : Nat → Option (List ConsoleLogEntry) :=
  fun x => if x = t then v else f x

/-- `attachDebuggerToTab` (lines 669 to 688): no-op when already
attached; on successful attach the tab enters the set and gets a fresh
empty ring, then the two `sendCommand` enables run, any failure being
rethrown after the state mutation. -/
def attachDebuggerToTab (env : Env) (st : BgState) (tabId : Nat) :
    List CapOp × BgState × Except String Unit :=
  if st.attached tabId then ([], st, .ok ())
  else
    match env.attachResult with
    | .error e => ([.debuggerAttach tabId], st, .error e)
    | .ok _ =>
      let st2 : BgState :=
        { attached := setAttached st.attached tabId true,
          rings := setRing st.rings tabId (some []) }
      match env.logEnableResult with
      | .error e =>
        ([.debuggerAttach tabId, .debuggerCmd tabId "Log.enable"], st2, .error e)
      | .ok _ =>
        match env.runtimeEnableResult with
        | .error e =>
          ([.debuggerAttach tabId, .debuggerCmd tabId "Log.enable",
            .debuggerCmd tabId "Runtime.enable"], st2, .error e)
        | .ok _ =>
          ([.debuggerAttach tabId, .debuggerCmd tabId "Log.enable",
            .debuggerCmd tabId "Runtime.enable"], st2, .ok ())

/-- `detachDebuggerFromTab` (lines 693 to 706): removes the tab from the
set only when the detach call succeeds; the ring is deliberately kept. -/
def detachDebuggerFromTab (env : Env) (st : BgState) (tabId : Nat) : BgState :=
  if st.attached tabId = false then st
  else
    match env.detachResult with
    | .error _ => st
    | .ok _ => { st with attached := setAttached st.attached tabId false }

/-- The level-group table of `getConsoleLogs` (lines 740 to 744); an
unrecognized level maps to the empty group. -/
def levelGroup (level : String) : List LogLevel :=
  if level = "error" then [.error]
  else if level = "warning" then [.warning]
  else if level = "info" then [.info, .log]
  else []

/-- `getConsoleLogs` (lines 711 to 765): resolves the active tab, lazily
attaches (surfacing attach failure as the action's failure), reads the
ring, filters by a truthy level other than `all`, clears the whole ring
when `clear` is truthy, and answers with the filtered snapshot. -/
def getConsoleLogs (env : Env) (st : BgState) (req : BrowserContextRequest) :
    List CapOp × BgState × Except String BrowserContextResponse :=
  match getActiveTab env with
  | .error e => ([], st, .error e)
  | .ok tab =>
    let tabId := tab.id
    let attach :=
      if st.attached tabId then ([], st, Except.ok ())
      else attachDebuggerToTab env st tabId
    match attach with
    | (ops1, st1, .error e) =>
      (ops1, st1,
       .ok (errResp req ("Failed to attach debugger: " ++ e)))
    | (ops1, st1, .ok _) =>
      let logs0 := (st1.rings tabId).getD []
      let logs :=
        match truthyStr (req.params.bind ReqParams.level) with
        | some lv =>
          if lv = "all" then logs0
          else logs0.filter (fun en => (levelGroup lv).contains en.level)
        | none => logs0
      let st2 :=
        if (req.params.bind ReqParams.clear).getD false then
          { st1 with rings := setRing st1.rings tabId (some []) }
        else st1
      (ops1, st2,
       .ok (okResp req (.logsData logs tabId tab.url (st2.attached tabId))))

/-! ## Request dispatch (messages.ts lines 230 to 277) -/

/-- Lifts a stateless handler result into the dispatch shape. -/
def liftStateless (st : BgState)
    (r : List CapOp × Except String BrowserContextResponse) :
    List CapOp × BgState × Except String BrowserContextResponse :=
  (r.1, st, r.2)

/-- The `switch (request.action)` of `handleBrowserContextRequest`
(lines 236 to 265), default arm included. -/
def dispatch (env : Env) (st : BgState) (req : BrowserContextRequest) :
    List CapOp × BgState × Except String BrowserContextResponse :=
  if req.action = "getDom" then liftStateless st (getActiveTabDom env req)
  else if req.action = "getSelection" then liftStateless st (getActiveTabSelection env req)
  else if req.action = "getUrl" then liftStateless st (getActiveTabUrl env req)
  else if req.action = "screenshot" then liftStateless st (captureActiveTabScreenshot env req)
  else if req.action = "executeScript" then liftStateless st (executeScriptInTab env req)
  else if req.action = "modifyDom" then liftStateless st (modifyDomInTab env req)
  else if req.action = "getConsoleLogs" then getConsoleLogs env st req
  else ([], st, .ok (errResp req ("Unknown action: " ++ req.action)))

/-- Observable outcome of handling one inbound browser request: the
capability operations invoked, the new background state, and the
`browser:response` envelopes handed to `sendToBackend`, in order. -/
structure HandleOut where
  ops : List CapOp
  state : BgState
  sent : List BrowserContextResponse

/-- `handleBrowserContextRequest` (lines 230 to 277): dispatch, send the
handler's response; the surrounding try/catch turns any thrown error
into a failure response carrying the same requestId. -/
def handleBrowserContextRequest (env : Env) (st : BgState)
    (req : BrowserContextRequest) : HandleOut :=
  match dispatch env st req with
  | (ops, st2, .ok r) => ⟨ops, st2, [r]⟩
  | (ops, st2, .error e) => ⟨ops, st2, [errResp req e]⟩

/-! ## Background event system (messages.ts lines 768 to 860) -/

/-- The `chrome.debugger.onEvent` listener: a falsy or unattached tab is
ignored; an event that normalizes to a record is appended to the tab's
ring with the capacity trim; other methods leave `entry` null. -/
def onDebuggerEvent (st : BgState) (tabId : Nat)
    (entry : Option ConsoleLogEntry) : BgState :=
  if tabId = 0 then st
  else if st.attached tabId = false then st
  else
    match entry with
    | none => st
    | some e =>
      { st with
        rings := setRing st.rings tabId
          (some (appendTrim ((st.rings tabId).getD []) e)) }

/-- The `chrome.debugger.onDetach` listener (lines 849 to 854): removes
the tab from the set, leaving its ring intact. -/
def onDebuggerDetach (st : BgState) (tabId : Nat) : BgState :=
  if tabId = 0 then st
  else { st with attached := setAttached st.attached tabId false }

/-- The `chrome.tabs.onRemoved` listener (lines 857 to 860): removes
both the session and the ring. -/
def onTabRemoved (st : BgState) (tabId : Nat) : BgState :=
  { attached := setAttached st.attached tabId false,
    rings := setRing st.rings tabId none }

/-- One asynchronous event touching the session/ring tables. -/
inductive BgEvent where
  | browserRequest (env : Env) (req : BrowserContextRequest)
  | debuggerEvent (tabId : Nat) (entry : Option ConsoleLogEntry)
  | debuggerDetached (tabId : Nat)
  | tabRemoved (tabId : Nat)
  | explicitDetach (env : Env) (tabId : Nat)

/-- Single-threaded event step of the background worker. -/
def stepBg (st : BgState) : BgEvent → BgState
  | .browserRequest env req => (handleBrowserContextRequest env st req).state
  | .debuggerEvent tabId entry => onDebuggerEvent st tabId entry
  | .debuggerDetached tabId => onDebuggerDetach st tabId
  | .tabRemoved tabId => onTabRemoved st tabId
  | .explicitDetach env tabId => detachDebuggerFromTab env st tabId

/-- State reached from startup after a sequence of events. -/
def reachBg (evs : List BgEvent) : BgState := evs.foldl stepBg initBg

/-! ### Ring lemmas -/

theorem suffixKeep_of_le (k : Nat) (l : List ConsoleLogEntry)
    (h : l.length ≤ k) : suffixKeep k l = l := by
  unfold suffixKeep
  have hz : l.length - k = 0 := by omega
  simp [hz]

theorem length_suffixKeep (k : Nat) (l : List ConsoleLogEntry) :
    (suffixKeep k l).length ≤ k := by
  unfold suffixKeep
  rw [List.length_drop]
  omega

theorem appendTrim_eq_suffixKeep (logs : List ConsoleLogEntry) (e : ConsoleLogEntry) :
    appendTrim logs e = suffixKeep MAX_LOGS_PER_TAB (logs ++ [e]) := by
  unfold appendTrim suffixKeep
  split
  · rfl
  · next h =>
    have h0 : (logs ++ [e]).length - MAX_LOGS_PER_TAB = 0 := by omega
    rw [h0, List.drop_zero]

theorem suffixKeep_append_of_ge (k : Nat) (x z : List ConsoleLogEntry)
    (h : k ≤ z.length) : suffixKeep k (x ++ z) = suffixKeep k z := by
  unfold suffixKeep
  have harith : (x ++ z).length - k = x.length + (z.length - k) := by
    rw [List.length_append]; omega
  rw [harith, List.drop_append]

theorem suffixKeep_suffixKeep_append (k : Nat) (a b : List ConsoleLogEntry) :
    suffixKeep k (suffixKeep k a ++ b) = suffixKeep k (a ++ b) := by
  by_cases hk : k ≤ a.length
  · have hlen : (suffixKeep k a).length = k := by
      unfold suffixKeep; rw [List.length_drop]; omega
    have h2 : k ≤ (suffixKeep k a ++ b).length := by
      rw [List.length_append, hlen]; omega
    have hsplit : a.take (a.length - k) ++ suffixKeep k a = a := by
      unfold suffixKeep; exact List.take_append_drop _ a
    calc suffixKeep k (suffixKeep k a ++ b)
        = suffixKeep k (a.take (a.length - k) ++ (suffixKeep k a ++ b)) :=
          (suffixKeep_append_of_ge k _ _ h2).symm
      _ = suffixKeep k (a ++ b) := by rw [← List.append_assoc, hsplit]
  · have ha : suffixKeep k a = a := suffixKeep_of_le k a (by omega)
    rw [ha]

theorem foldl_appendTrim (es init : List ConsoleLogEntry)
    (h : init.length ≤ MAX_LOGS_PER_TAB) :
    es.foldl appendTrim init = suffixKeep MAX_LOGS_PER_TAB (init ++ es) := by
  induction es generalizing init with
  | nil => simpa using (suffixKeep_of_le _ init h).symm
  | cons e es ih =>
    rw [List.foldl_cons]
    have hlen : (appendTrim init e).length ≤ MAX_LOGS_PER_TAB := by
      rw [appendTrim_eq_suffixKeep]
      exact length_suffixKeep _ _
    rw [ih _ hlen, appendTrim_eq_suffixKeep, suffixKeep_suffixKeep_append]
    rw [List.append_assoc]
    rfl

/-! ## Correlation: every handler answer carries the request's id -/

/-- A handler outcome correlates with a request when its success payload
carries the request's id (thrown errors are correlated by the catch). -/
def respOk (req : BrowserContextRequest) :
    Except String BrowserContextResponse → Prop
  | .ok r => r.requestId = req.requestId
  | .error _ => True

theorem getActiveTabDom_respOk (env : Env) (req : BrowserContextRequest) :
    respOk req (getActiveTabDom env req).2 := by
  unfold getActiveTabDom
  rcases hT : getActiveTab env with e | tab
  · simp [hT, respOk]
  · rcases hI : env.injectionError with _ | e
    · rcases hQ : env.page.queryOne (strOr (req.params.bind ReqParams.selector) "body")
          with _ | el <;> simp [hT, hI, hQ, respOk, okResp, errResp]
    · simp [hT, hI, respOk]

theorem getActiveTabSelection_respOk (env : Env) (req : BrowserContextRequest) :
    respOk req (getActiveTabSelection env req).2 := by
  unfold getActiveTabSelection
  repeat' split
  all_goals simp [respOk, okResp, errResp]

theorem getActiveTabUrl_respOk (env : Env) (req : BrowserContextRequest) :
    respOk req (getActiveTabUrl env req).2 := by
  unfold getActiveTabUrl
  repeat' split
  all_goals simp [respOk, okResp, errResp]

theorem captureActiveTabScreenshot_respOk (env : Env) (req : BrowserContextRequest) :
    respOk req (captureActiveTabScreenshot env req).2 := by
  unfold captureActiveTabScreenshot
  repeat' split
  all_goals simp [respOk, okResp, errResp]

theorem executeScriptInTab_respOk (env : Env) (req : BrowserContextRequest) :
    respOk req (executeScriptInTab env req).2 := by
  unfold executeScriptInTab
  repeat' split
  all_goals simp [respOk, okResp, errResp]

theorem modifyDomInTab_respOk (env : Env) (req : BrowserContextRequest) :
    respOk req (modifyDomInTab env req).2 := by
  unfold modifyDomInTab
  rcases hT : getActiveTab env with e | tab
  · simp [hT, respOk]
  · rcases hS : truthyStr (req.params.getD {}).selector with _ | selector
    · simp [hT, hS, respOk, errResp]
    · rcases hAc : truthyStr (req.params.getD {}).action with _ | act
      · simp [hT, hS, hAc, respOk, errResp]
      · rcases hI : env.injectionError with _ | e
        · rcases hM : modifyDomFunc env.page selector act (req.params.getD {}).value
              (req.params.getD {}).attributeName ((req.params.getD {}).all.getD false)
              with ⟨c, msg, ids⟩ | e
              <;> simp [hT, hS, hAc, hI, hM, respOk, okResp, errResp]
        · simp [hT, hS, hAc, hI, respOk, errResp]

theorem getConsoleLogs_respOk (env : Env) (st : BgState) (req : BrowserContextRequest) :
    respOk req (getConsoleLogs env st req).2.2 := by
  unfold getConsoleLogs
  rcases hT : getActiveTab env with e | tab
  · simp [hT, respOk]
  · rcases hA : (if st.attached tab.id = true then (([], st, Except.ok ()))
        else attachDebuggerToTab env st tab.id) with ⟨ops1, st1, e | u⟩
        <;> simp [hT, hA, respOk, okResp, errResp]

theorem dispatch_respOk (env : Env) (st : BgState) (req : BrowserContextRequest) :
    respOk req (dispatch env st req).2.2 := by
  unfold dispatch liftStateless
  repeat' split
  · exact getActiveTabDom_respOk env req
  · exact getActiveTabSelection_respOk env req
  · exact getActiveTabUrl_respOk env req
  · exact captureActiveTabScreenshot_respOk env req
  · exact executeScriptInTab_respOk env req
  · exact modifyDomInTab_respOk env req
  · exact getConsoleLogs_respOk env st req
  · simp [respOk, errResp]

/-- Claim C1: for every inbound browser-request envelope — whether its
action is in the known set or not, and whether the selected handler
succeeds, returns a failure, or throws — `handleBrowserContextRequest`
produces exactly one `browser:response` envelope, and it carries the
request's own requestId. -/
theorem handleBrowserContextRequest_single_correlated_response
    (env : Env) (st : BgState) (req : BrowserContextRequest) :
    (handleBrowserContextRequest env st req).sent.length = 1 ∧
    (handleBrowserContextRequest env st req).sent.map
        BrowserContextResponse.requestId = [req.requestId] := by
  have hd := dispatch_respOk env st req
  unfold handleBrowserContextRequest
  rcases hq : dispatch env st req with ⟨ops, st2, res⟩
  try rw [hq] at hd
  try simp only [hq]
  cases res with
  | ok r =>
    simp only [respOk] at hd
    simp [hd]
  | error e =>
    simp [errResp]

/-! ## Claim C2 support: settled promises never change -/

theorem settle_of_settled (s : CallState) (x : Except String ContentScriptResponse)
    (r : Except String ContentScriptResponse) (h : s.settled = some x) :
    (settle s r).settled = some x := by
  simp [settle, h]

theorem onResponse_of_settled (s : CallState) (x : Except String ContentScriptResponse)
    (lastErr : Option String) (resp : ContentScriptResponse)
    (h : s.settled = some x) :
    (onResponse s lastErr resp).settled = some x := by
  cases lastErr <;> simp [onResponse, settle, h]

theorem foldl_onResponse_settled
    (rs : List (Option String × ContentScriptResponse)) (s : CallState)
    (x : Except String ContentScriptResponse) (h : s.settled = some x) :
    (rs.foldl (fun s p => onResponse s p.1 p.2) s).settled = some x := by
  induction rs generalizing s with
  | nil => exact h
  | cons p rs ih =>
    rw [List.foldl_cons]
    exact ih _ (onResponse_of_settled s x p.1 p.2 h)

/-- Claim C2: a request round trip whose matching response does not
arrive before the fixed timeout settles the caller's promise with the
timeout failure — the call is then no longer pending — and any sequence
of responses (with or without a platform error) arriving afterwards
leaves that settled outcome unchanged, i.e. is discarded with no
observable effect on the caller. -/
theorem content_script_timeout_then_late_responses_discarded
    (laterResponses : List (Option String × ContentScriptResponse)) :
    (onTimeoutFire initialCall).settled
      = some (.error CONTENT_SCRIPT_TIMEOUT_ERROR) ∧
    (laterResponses.foldl (fun s p => onResponse s p.1 p.2)
        (onTimeoutFire initialCall)).settled
      = some (.error CONTENT_SCRIPT_TIMEOUT_ERROR) := by
  have h1 : (onTimeoutFire initialCall).settled
      = some (.error CONTENT_SCRIPT_TIMEOUT_ERROR) := rfl
  exact ⟨h1, foldl_onResponse_settled laterResponses _ _ h1⟩

/-- Claim C3: the reconnect counter is zeroed by the socket open handler
and by the manual reconnect trigger (shown on its successful-creation
path); below the maximum of 10, each failed attempt increments it by one
and schedules exactly one new automatic attempt; at the maximum, the
counter stays, nothing is scheduled, and only the terminal error status
is broadcast; the counter never exceeds the maximum. -/
theorem reconnect_counter_policy (s : ConnState)
    (hmax : s.reconnectAttempts ≤ MAX_RECONNECT_ATTEMPTS) :
    (socketOnOpen s).reconnectAttempts = 0
    ∧ (manualReconnect true s).reconnectAttempts = 0
    ∧ (s.reconnectAttempts < MAX_RECONNECT_ATTEMPTS →
        (scheduleReconnect s).reconnectAttempts = s.reconnectAttempts + 1
        ∧ (scheduleReconnect s).scheduledConnects = s.scheduledConnects + 1)
    ∧ (s.reconnectAttempts = MAX_RECONNECT_ATTEMPTS →
        (scheduleReconnect s).reconnectAttempts = s.reconnectAttempts
        ∧ (scheduleReconnect s).scheduledConnects = s.scheduledConnects
        ∧ (scheduleReconnect s).broadcasts = s.broadcasts ++
            [⟨"error",
              some "Failed to connect after multiple attempts. Is the backend running?"⟩])
    ∧ (scheduleReconnect s).reconnectAttempts ≤ MAX_RECONNECT_ATTEMPTS := by
  refine ⟨?_, ?_, ?_, ?_, ?_⟩
  · simp [socketOnOpen, broadcastToExtension]
  · unfold manualReconnect connectToBackend
    split
    · rfl
    · simp [broadcastToExtension]
  · intro hlt
    simp [scheduleReconnect, hlt]
  · intro heq
    have : ¬ s.reconnectAttempts < MAX_RECONNECT_ATTEMPTS := by omega
    simp [scheduleReconnect, this, broadcastToExtension]
  · unfold scheduleReconnect
    split
    · next h => simpa using by omega
    · simpa [broadcastToExtension] using hmax

theorem reconnect_counter_policy_witness :
    ({} : ConnState).reconnectAttempts ≤ MAX_RECONNECT_ATTEMPTS ∧
    ((socketOnOpen {}).reconnectAttempts = 0
    ∧ (manualReconnect true {}).reconnectAttempts = 0
    ∧ (({} : ConnState).reconnectAttempts < MAX_RECONNECT_ATTEMPTS →
        (scheduleReconnect {}).reconnectAttempts = ({} : ConnState).reconnectAttempts + 1
        ∧ (scheduleReconnect {}).scheduledConnects = ({} : ConnState).scheduledConnects + 1)
    ∧ (({} : ConnState).reconnectAttempts = MAX_RECONNECT_ATTEMPTS →
        (scheduleReconnect {}).reconnectAttempts = ({} : ConnState).reconnectAttempts
        ∧ (scheduleReconnect {}).scheduledConnects = ({} : ConnState).scheduledConnects
        ∧ (scheduleReconnect {}).broadcasts = ({} : ConnState).broadcasts ++
            [⟨"error",
              some "Failed to connect after multiple attempts. Is the backend running?"⟩])
    ∧ (scheduleReconnect {}).reconnectAttempts ≤ MAX_RECONNECT_ATTEMPTS) :=
  ⟨by decide, reconnect_counter_policy {} (by decide)⟩

/-- Claim C7: starting from the empty ring a tab receives on attach,
after any sequence of appended debug-event records the ring holds at most
`MAX_LOGS_PER_TAB` (500) records, and the retained records are exactly
the suffix of most recently appended ones in arrival order. -/
theorem ring_capacity_and_recency (es : List ConsoleLogEntry) :
    (ringAfter es).length ≤ MAX_LOGS_PER_TAB ∧
    ringAfter es = es.drop (es.length - MAX_LOGS_PER_TAB) := by
  have h := foldl_appendTrim es [] (by simp)
  simp only [List.nil_append] at h
  unfold ringAfter
  rw [h]
  exact ⟨length_suffixKeep _ _, rfl⟩

/-! ## Claim C6: idempotence of connectToBackend -/

/-- A connection manager state whose socket is mid-handshake
(readyState CONNECTING). -/
def connectingState : ConnState :=
  { socket := some ⟨0, WS_CONNECTING⟩, reconnectAttempts := 0,
    scheduledConnects := 0, broadcasts := [], nextSockId := 1 }

/-- Claim C6 counterexample: calling `connectToBackend` while a
connection attempt is actively in progress (socket CONNECTING) is not a
no-op — it broadcasts a `connecting` status and constructs a brand-new
`WebSocket`, replacing the in-progress one — so the claimed idempotence
while connecting is false. -/
theorem connectToBackend_not_idempotent_while_connecting :
    connectToBackend true connectingState ≠ connectingState ∧
    (connectToBackend true connectingState).nextSockId
      = connectingState.nextSockId + 1 ∧
    (connectToBackend true connectingState).socket
      = some ⟨connectingState.nextSockId, WS_CONNECTING⟩ := by
  decide

/-- A connection manager state whose socket is OPEN. -/
def openSocketState : ConnState :=
  { socket := some ⟨0, WS_OPEN⟩, reconnectAttempts := 0,
    scheduledConnects := 0, broadcasts := [], nextSockId := 1 }

/-- Claim C6 (amended): `connectToBackend` is a no-op exactly in the
already-connected case — whenever the socket's readyState is OPEN the
call returns the state unchanged, creating no socket and changing
nothing; while a connection attempt is merely in progress it instead
starts a fresh attempt. -/
theorem connectToBackend_idempotent_when_open (s : ConnState) (createOk : Bool)
    (h : socketIsOpen s = true) : connectToBackend createOk s = s := by
  unfold connectToBackend
  simp [h]

theorem connectToBackend_idempotent_when_open_witness :
    socketIsOpen openSocketState = true ∧
    connectToBackend true openSocketState = openSocketState :=
  ⟨by decide, connectToBackend_idempotent_when_open openSocketState true (by decide)⟩

/-! ## Claim C4: denylist guard before capability invocation -/

/-- A tab on a denylisted internal scheme. -/
def restrictedTab : Tab := ⟨7, "chrome://settings", "Settings"⟩

/-- A page with no content, for environments whose page is never
reached. -/
def emptyPage : Page :=
  { url := "", title := "", selText := "", queryAll := fun _ => [] }

/-- Environment whose active tab is the denylisted one. -/
def restrictedEnv : Env := { activeTab := some restrictedTab, page := emptyPage }

/-- A screenshot request. -/
def screenshotReq : BrowserContextRequest := ⟨"req-shot-1", "screenshot", none⟩

/-- Claim C4 counterexample: with the active tab on `chrome://settings`
— squarely in the denylist — a `screenshot` request still invokes the
capture capability: `captureActiveTabScreenshot` never resolves the
active tab, so no rejection happens before the capability operation. -/
theorem screenshot_invoked_despite_denylisted_tab :
    restrictedUrl restrictedTab.url = true ∧
    restrictedEnv.activeTab = some restrictedTab ∧
    (handleBrowserContextRequest restrictedEnv initBg screenshotReq).ops
      = [CapOp.capture] := by
  refine ⟨by decide, rfl, ?_⟩
  rfl

/-- Claim C4 (amended): for the six actions other than `screenshot`
(getDom, getSelection, getUrl, executeScript, modifyDom,
getConsoleLogs), whenever active-tab resolution fails — no active tab,
falsy tab id, or a denylisted URL — the request is answered with exactly
the resolution error as a failure response, no capability operation is
invoked, and the background state is untouched; the `screenshot` action
instead calls the capture primitive directly without that check. -/
theorem tab_resolution_guards_capabilities (env : Env) (st : BgState)
    (req : BrowserContextRequest) (msg : String)
    (hact : req.action = "getDom" ∨ req.action = "getSelection"
      ∨ req.action = "getUrl" ∨ req.action = "executeScript"
      ∨ req.action = "modifyDom" ∨ req.action = "getConsoleLogs")
    (htab : getActiveTab env = .error msg) :
    (handleBrowserContextRequest env st req).ops = [] ∧
    (handleBrowserContextRequest env st req).state = st ∧
    (handleBrowserContextRequest env st req).sent = [errResp req msg] := by
  rcases hact with h | h | h | h | h | h <;>
    simp [handleBrowserContextRequest, dispatch, liftStateless, h,
      getActiveTabDom, getActiveTabSelection, getActiveTabUrl,
      executeScriptInTab, modifyDomInTab, getConsoleLogs, htab]

/-- A getDom request, used to witness the amended guard. -/
def domReq : BrowserContextRequest := ⟨"req-dom-1", "getDom", none⟩

theorem tab_resolution_guards_capabilities_witness :
    (domReq.action = "getDom" ∨ domReq.action = "getSelection"
      ∨ domReq.action = "getUrl" ∨ domReq.action = "executeScript"
      ∨ domReq.action = "modifyDom" ∨ domReq.action = "getConsoleLogs") ∧
    getActiveTab restrictedEnv
      = .error "Cannot access restricted page: chrome://..." ∧
    ((handleBrowserContextRequest restrictedEnv initBg domReq).ops = [] ∧
     (handleBrowserContextRequest restrictedEnv initBg domReq).state = initBg ∧
     (handleBrowserContextRequest restrictedEnv initBg domReq).sent
       = [errResp domReq "Cannot access restricted page: chrome://..."]) :=
  ⟨Or.inl rfl, by decide,
    tab_resolution_guards_capabilities restrictedEnv initBg domReq
      "Cannot access restricted page: chrome://..." (Or.inl rfl) (by decide)⟩

/-! ## Claim C5: executeScript error reporting -/

/-- A tab on an ordinary https page. -/
def normalTab : Tab := ⟨3, "https://example.com/page", "Example"⟩

/-- Environment where the injected user script raises an exception with
message `boom` when run in the page context. -/
def throwingScriptEnv : Env :=
  { activeTab := some normalTab, page := emptyPage, execThrows := some "boom" }

/-- An executeScript request whose script throws. -/
def throwingScriptReq : BrowserContextRequest :=
  ⟨"req-exec-1", "executeScript", some { script := some "throw new Error(boom)" }⟩

/-- An executeScript request with no script parameter. -/
def noScriptReq : BrowserContextRequest := ⟨"req-exec-2", "executeScript", none⟩

/-- Claim C5, evaluated at the failing input: the wrapper IIFE does
catch the page exception (its value is the error object carrying
`boom`), but the injected function discards that value and returns
`success: true`, so the browser-response is a success carrying
`data.success = true` — not the structured failure data the claim (and
the wrapper's own construction) call for. The missing-script half of
the claim does hold: no script yields the `No script provided`
failure. -/
theorem executeScript_exception_swallowed :
    runWrappedIife throwingScriptEnv.execThrows = IifeResult.errObj "boom" ∧
    (handleBrowserContextRequest throwingScriptEnv initBg throwingScriptReq).sent
      = [okResp throwingScriptReq (RespData.execResult true)] ∧
    (handleBrowserContextRequest throwingScriptEnv initBg noScriptReq).sent
      = [errResp noScriptReq "No script provided"] := by
  refine ⟨rfl, ?_, ?_⟩ <;> decide

/-! ## Claim C8: modifyDom first-versus-all counts -/

theorem modifyLoop_all_ok (action : String) (value attributeName : Option String)
    (hstep : modifyDomStep action value attributeName = Except.ok ())
    (l : List Elem) :
    modifyLoop action value attributeName l = .ok (l.length, l.map Elem.eid) := by
  induction l with
  | nil => rfl
  | cons el rest ih => simp [modifyLoop, hstep, ih]

/-- Claim C8: for an action whose per-element precondition holds, a
selector matching no element makes `modifyDom` fail naming the selector
(for either value of `all`); a selector matching `el :: rest` modifies
exactly the first element with `modifiedCount = 1` when `all` is false,
and every matching element with `modifiedCount` equal to the match count
when `all` is true. -/
theorem modifyDom_first_vs_all (page : Page) (selector action : String)
    (value attributeName : Option String)
    (hstep : modifyDomStep action value attributeName = Except.ok ()) :
    (page.queryAll selector = [] →
      ∀ all, modifyDomFunc page selector action value attributeName all
        = .failure ("No elements found matching: " ++ selector)) ∧
    (∀ el rest, page.queryAll selector = el :: rest →
      (modifyDomFunc page selector action value attributeName false
        = .ok 1 ("Modified " ++ toString 1 ++ " element(s) using " ++ action)
            [el.eid]) ∧
      (modifyDomFunc page selector action value attributeName true
        = .ok (el :: rest).length
            ("Modified " ++ toString (el :: rest).length
              ++ " element(s) using " ++ action)
            ((el :: rest).map Elem.eid))) := by
  constructor
  · intro hempty all
    unfold modifyDomFunc
    cases all <;> simp [hempty]
  · intro el rest hmatch
    constructor
    · unfold modifyDomFunc
      simp [hmatch, modifyLoop_all_ok action value attributeName hstep]
    · unfold modifyDomFunc
      simp [hmatch, modifyLoop_all_ok action value attributeName hstep]

/-- A page whose selector `.item` matches three elements. -/
def threeElemPage : Page :=
  { url := "https://example.com/", title := "Example", selText := "",
    queryAll := fun s => if s = ".item"
      then [⟨1, "<div>a</div>"⟩, ⟨2, "<div>b</div>"⟩, ⟨3, "<div>c</div>"⟩]
      else [] }

theorem modifyDom_first_vs_all_witness :
    modifyDomStep "setText" (some "hi") none = Except.ok () ∧
    modifyDomFunc threeElemPage ".item" "setText" (some "hi") none false
      = .ok 1 "Modified 1 element(s) using setText" [1] ∧
    modifyDomFunc threeElemPage ".item" "setText" (some "hi") none true
      = .ok 3 "Modified 3 element(s) using setText" [1, 2, 3] := by
  have h := (modifyDom_first_vs_all threeElemPage ".item" "setText" (some "hi") none
      (by decide)).2 ⟨1, "<div>a</div>"⟩ [⟨2, "<div>b</div>"⟩, ⟨3, "<div>c</div>"⟩]
      (by decide)
  refine ⟨by decide, ?_, ?_⟩
  · rw [h.1]; decide
  · rw [h.2]; decide

/-! ## Claim C9: sessions versus rings -/

/-- Every tab in the attached-session set owns a log ring. -/
def sessionHasRing (st : BgState) : Prop :=
  ∀ t, st.attached t = true → (st.rings t).isSome = true

theorem initBg_sessionHasRing : sessionHasRing initBg := by
  intro t ht
  simp [initBg] at ht

theorem sessionHasRing_attachState (st : BgState) (tabId : Nat)
    (h : sessionHasRing st) :
    sessionHasRing { attached := setAttached st.attached tabId true,
                     rings := setRing st.rings tabId (some []) } := by
  intro t ht
  by_cases hteq : t = tabId
  · subst hteq; simp [setRing]
  · simp only [setAttached, if_neg hteq] at ht
    simp only [setRing, if_neg hteq]
    exact h t ht

theorem attachDebuggerToTab_preserves (env : Env) (st : BgState) (tabId : Nat)
    (h : sessionHasRing st) :
    sessionHasRing (attachDebuggerToTab env st tabId).2.1 := by
  unfold attachDebuggerToTab
  repeat' split
  all_goals first
    | exact h
    | exact sessionHasRing_attachState st tabId h

theorem getConsoleLogs_preserves (env : Env) (st : BgState)
    (req : BrowserContextRequest) (h : sessionHasRing st) :
    sessionHasRing (getConsoleLogs env st req).2.1 := by
  unfold getConsoleLogs
  rcases hT : getActiveTab env with e | tab
  · try simp only [hT]
    exact h
  · try simp only [hT]
    have hst1 : sessionHasRing
        (if st.attached tab.id = true then (([], st, Except.ok ()))
         else attachDebuggerToTab env st tab.id).2.1 := by
      split
      · exact h
      · exact attachDebuggerToTab_preserves env st tab.id h
    rcases hA : (if st.attached tab.id = true then (([], st, Except.ok ()))
        else attachDebuggerToTab env st tab.id) with ⟨ops1, st1, att⟩
    try rw [hA] at hst1
    try simp only [hA]
    rcases att with e | u
    · exact hst1
    · dsimp only
      split
      · intro t ht
        by_cases hteq : t = tab.id
        · subst hteq; simp [setRing]
        · simp only [setRing, if_neg hteq]
          exact hst1 t ht
      · exact hst1

theorem dispatch_preserves (env : Env) (st : BgState)
    (req : BrowserContextRequest) (h : sessionHasRing st) :
    sessionHasRing (dispatch env st req).2.1 := by
  unfold dispatch liftStateless
  repeat' split
  all_goals first
    | exact h
    | exact getConsoleLogs_preserves env st req h

theorem handleBrowserContextRequest_preserves (env : Env) (st : BgState)
    (req : BrowserContextRequest) (h : sessionHasRing st) :
    sessionHasRing (handleBrowserContextRequest env st req).state := by
  have h2 := dispatch_preserves env st req h
  unfold handleBrowserContextRequest
  rcases hD : dispatch env st req with ⟨ops, st2, res⟩
  try rw [hD] at h2
  try simp only [hD]
  rcases res with e | r
  · exact h2
  · exact h2

theorem stepBg_preserves (st : BgState) (ev : BgEvent) (h : sessionHasRing st) :
    sessionHasRing (stepBg st ev) := by
  cases ev with
  | browserRequest env req =>
    simp only [stepBg]
    exact handleBrowserContextRequest_preserves env st req h
  | debuggerEvent tabId entry =>
    simp only [stepBg]
    unfold onDebuggerEvent
    repeat' split
    all_goals try exact h
    intro t ht
    by_cases hteq : t = tabId
    · subst hteq; simp [setRing]
    · simp only [setRing, if_neg hteq]
      exact h t ht
  | debuggerDetached tabId =>
    simp only [stepBg]
    unfold onDebuggerDetach
    split
    · exact h
    · intro t ht
      by_cases hteq : t = tabId
      · subst hteq
        simp [setAttached] at ht
      · simp only [setAttached, if_neg hteq] at ht
        exact h t ht
  | tabRemoved tabId =>
    simp only [stepBg]
    intro t ht
    unfold onTabRemoved at ht ⊢
    by_cases hteq : t = tabId
    · subst hteq
      simp [setAttached] at ht
    · simp only [setAttached, if_neg hteq] at ht
      simp only [setRing, if_neg hteq]
      exact h t ht
  | explicitDetach env tabId =>
    simp only [stepBg]
    unfold detachDebuggerFromTab
    repeat' split
    all_goals try exact h
    intro t ht
    by_cases hteq : t = tabId
    · subst hteq
      simp [setAttached] at ht
    · simp only [setAttached, if_neg hteq] at ht
      exact h t ht

theorem foldl_stepBg_preserves (evs : List BgEvent) (st : BgState)
    (h : sessionHasRing st) : sessionHasRing (evs.foldl stepBg st) := by
  induction evs generalizing st with
  | nil => exact h
  | cons e evs ih => exact ih _ (stepBg_preserves st e h)

/-- Claim C9 (amended): at every state reachable from startup, every tab
in the attached-session set owns a log ring; the converse inclusion is
false, because detachment removes the session but deliberately leaves
the ring intact (and only tab close removes both). -/
theorem attached_tab_owns_ring (evs : List BgEvent) (t : Nat)
    (h : (reachBg evs).attached t = true) :
    ((reachBg evs).rings t).isSome = true :=
  foldl_stepBg_preserves evs initBg initBg_sessionHasRing t h

/-- Environment with an ordinary active tab and a debugger that attaches
successfully. -/
def exampleEnv : Env := { activeTab := some normalTab, page := emptyPage }

/-- A getConsoleLogs request with no parameters. -/
def logsReq : BrowserContextRequest := ⟨"req-logs-1", "getConsoleLogs", none⟩

/-- Attach to tab 3 via a console-log read, then the debugger detaches
externally. -/
def detachTrace : List BgEvent :=
  [.browserRequest exampleEnv logsReq, .debuggerDetached 3]

/-- Claim C9 counterexample: after attaching to tab 3 through a
console-log read and then losing the debugger (onDetach), the reachable
state has tab 3 outside the attached-session set while tab 3 still owns
a log ring — the two sets do not coincide. -/
theorem session_ring_sets_diverge :
    (reachBg detachTrace).attached 3 = false ∧
    ((reachBg detachTrace).rings 3).isSome = true := by
  constructor <;> rfl

/-- Attach to tab 3 via a console-log read. -/
def attachTrace : List BgEvent := [.browserRequest exampleEnv logsReq]

theorem attached_tab_owns_ring_witness :
    (reachBg attachTrace).attached 3 = true ∧
    ((reachBg attachTrace).rings 3).isSome = true :=
  ⟨by rfl, attached_tab_owns_ring attachTrace 3 (by rfl)⟩

/-! ## Claim C10: clear=true empties the whole ring -/

theorem attachDebuggerToTab_ok (env : Env) (st : BgState) (tabId : Nat)
    (hat : st.attached tabId = false)
    (ha : env.attachResult = .ok ()) (hl : env.logEnableResult = .ok ())
    (hr : env.runtimeEnableResult = .ok ()) :
    attachDebuggerToTab env st tabId =
      ([.debuggerAttach tabId, .debuggerCmd tabId "Log.enable",
        .debuggerCmd tabId "Runtime.enable"],
       { attached := setAttached st.attached tabId true,
         rings := setRing st.rings tabId (some []) }, .ok ()) := by
  unfold attachDebuggerToTab
  simp [hat, ha, hl, hr]

theorem getConsoleLogs_clear_state (env : Env) (st : BgState)
    (req : BrowserContextRequest) (tab : Tab)
    (htab : getActiveTab env = .ok tab)
    (hready : st.attached tab.id = true ∨
      (env.attachResult = .ok () ∧ env.logEnableResult = .ok ()
        ∧ env.runtimeEnableResult = .ok ()))
    (hclear : (req.params.bind ReqParams.clear).getD false = true) :
    (getConsoleLogs env st req).2.1.rings tab.id = some [] ∧
    (getConsoleLogs env st req).2.1.attached tab.id = true := by
  unfold getConsoleLogs
  simp only [htab]
  by_cases hat : st.attached tab.id = true
  · simp only [if_pos hat]
    try dsimp only
    rw [if_pos hclear]
    exact ⟨by simp [setRing], hat⟩
  · rcases hready with hready | ⟨ha, hl, hr⟩
    · exact absurd hready hat
    · have hat2 : st.attached tab.id = false := by
        simpa using hat
      rw [if_neg hat, attachDebuggerToTab_ok env st tab.id hat2 ha hl hr]
      try dsimp only
      rw [if_pos hclear]
      constructor
      · simp [setRing]
      · simp [setAttached]

theorem getConsoleLogs_empty_ring_read (env : Env) (s2 : BgState)
    (req2 : BrowserContextRequest) (tab : Tab)
    (htab : getActiveTab env = .ok tab)
    (h1 : s2.rings tab.id = some [])
    (h2 : s2.attached tab.id = true) :
    (getConsoleLogs env s2 req2).2.2
      = .ok (okResp req2 (.logsData [] tab.id tab.url true)) := by
  unfold getConsoleLogs
  simp only [htab, if_pos h2]
  try dsimp only
  rcases hL : truthyStr (req2.params.bind ReqParams.level) with _ | lv
  · by_cases hc2 : (req2.params.bind ReqParams.clear).getD false = true
    · simp [hL, hc2, h1, h2, okResp]
    · simp [hL, hc2, h1, h2, okResp]
  · by_cases hall : lv = "all"
    · by_cases hc2 : (req2.params.bind ReqParams.clear).getD false = true
      · simp [hL, hall, hc2, h1, h2, okResp]
      · simp [hL, hall, hc2, h1, h2, okResp]
    · by_cases hc2 : (req2.params.bind ReqParams.clear).getD false = true
      · simp [hL, hall, hc2, h1, h2, okResp]
      · simp [hL, hall, hc2, h1, h2, okResp]

/-- Claim C10: a getConsoleLogs request with a truthy `clear` empties
the active tab's entire ring — the clear is applied to the stored ring,
not to the level-filtered snapshot, so records excluded by a level
filter are deleted too — and a subsequent read with any filter returns
an empty log list. (`hready` says the read can reach the ring: the tab
was already attached, or the lazy attach succeeds.) -/
theorem getConsoleLogs_clear_empties_whole_ring (env : Env) (st : BgState)
    (req req2 : BrowserContextRequest) (tab : Tab)
    (htab : getActiveTab env = .ok tab)
    (hready : st.attached tab.id = true ∨
      (env.attachResult = .ok () ∧ env.logEnableResult = .ok ()
        ∧ env.runtimeEnableResult = .ok ()))
    (hclear : (req.params.bind ReqParams.clear).getD false = true) :
    (getConsoleLogs env st req).2.1.rings tab.id = some [] ∧
    (getConsoleLogs env ((getConsoleLogs env st req).2.1) req2).2.2
      = .ok (okResp req2 (.logsData [] tab.id tab.url true)) := by
  obtain ⟨hring, hatt⟩ := getConsoleLogs_clear_state env st req tab htab hready hclear
  exact ⟨hring, getConsoleLogs_empty_ring_read env _ req2 tab htab hring hatt⟩

/-- Pre-state for the clear witness: tab 3 attached with a ring holding
one `log`-level record, which an `error` level filter excludes. -/
def preClearState : BgState :=
  { attached := fun t => t == 3,
    rings := fun t => if t == 3 then some [⟨.log, "hello", 0, none, none, none⟩]
             else none }

/-- A getConsoleLogs request filtering to errors and clearing. -/
def clearReq : BrowserContextRequest :=
  ⟨"req-logs-2", "getConsoleLogs", some { level := some "error", clear := some true }⟩

/-- A follow-up read with a different filter. -/
def readReq : BrowserContextRequest :=
  ⟨"req-logs-3", "getConsoleLogs", some { level := some "warning" }⟩

theorem getConsoleLogs_clear_empties_whole_ring_witness :
    (getActiveTab exampleEnv = .ok normalTab ∧
     preClearState.attached normalTab.id = true ∧
     (clearReq.params.bind ReqParams.clear).getD false = true) ∧
    ((getConsoleLogs exampleEnv preClearState clearReq).2.1.rings normalTab.id
        = some [] ∧
     (getConsoleLogs exampleEnv
        ((getConsoleLogs exampleEnv preClearState clearReq).2.1) readReq).2.2
       = .ok (okResp readReq (.logsData [] normalTab.id normalTab.url true))) :=
  ⟨⟨by decide, by decide, by decide⟩,
    getConsoleLogs_clear_empties_whole_ring exampleEnv preClearState clearReq readReq
      normalTab (by decide) (Or.inl (by decide)) (by decide)⟩

end ChromeGeminiSync
